import Mathlib

/-!
Verification of the link-guardian confidence-gauge component.

This file gives a shallow embedding of the gauge animation code of the
repository (src/script.js, first variant, and src/gauge.js, first variant)
and of the URL heuristic of checkLink, and proves or refutes the frozen
claims about them.

Modelling conventions:
* JavaScript numbers are modelled as `Option ℚ`, with `none` standing for
  NaN and `some q` for a finite value; `Math.max` / `Math.min` / arithmetic
  propagate NaN exactly as in JavaScript.  Where the source coerces NaN
  away (script.js writes `Number(confidence) || 0`) the model does the same
  and the downstream computation is a total function on ℚ.
* DOM attribute writes are recorded in explicit state records or mutation
  lists; `getPointAtLength(len)` is recorded by the arc-length argument
  `len`, since the point is a fixed function of the path geometry.
* `Math.round` is the Mathlib `round` (round half towards +∞, as in JS).
* requestAnimationFrame / setTimeout scheduling is modelled by explicit
  lists of pending callbacks; firing a callback pops it and may push its
  successor, exactly mirroring the closures in the source.
-/

/-- A JavaScript number in the fragments we model: `none` is NaN, `some q`
a finite value (floats are idealised as rationals). -/
abbrev JSNum := Option ℚ

/-- Lift a binary rational operation to JS numbers; NaN propagates, as every
JS arithmetic primitive and `Math.max` / `Math.min` do. -/
def jsBinOp (f : ℚ → ℚ → ℚ) : JSNum → JSNum → JSNum
  | some a, some b => some (f a b)
  | _, _ => none

/-- JS addition on possibly-NaN numbers. -/
def jsAdd : JSNum → JSNum → JSNum := jsBinOp (· + ·)

/-- JS subtraction on possibly-NaN numbers. -/
def jsSub : JSNum → JSNum → JSNum := jsBinOp (· - ·)

/-- JS multiplication on possibly-NaN numbers. -/
def jsMul : JSNum → JSNum → JSNum := jsBinOp (· * ·)

/-- JS division on possibly-NaN numbers (never applied at divisor 0 here). -/
def jsDiv : JSNum → JSNum → JSNum := jsBinOp (· / ·)

/-- JS `Math.min`: NaN in either argument gives NaN. -/
def jsMin : JSNum → JSNum → JSNum := jsBinOp min

/-- JS `Math.max`: NaN in either argument gives NaN. -/
def jsMax : JSNum → JSNum → JSNum := jsBinOp max

/-- JS `Math.round` (round half towards +∞); NaN rounds to NaN. -/
def jsRound : JSNum → JSNum
  | none => none
  | some q => some ((round q : ℤ) : ℚ)

/-- Test whether the first character list starts the second
(models the character-by-character comparison behind JS String.includes). -/
def chStarts : List Char → List Char → Bool
  | [], _ => true
  | _ :: _, [] => false
  | a :: as, b :: bs => a == b && chStarts as bs

/-- Test whether the first character list occurs inside the second. -/
def chSub : List Char → List Char → Bool
  | pat, [] => pat.isEmpty
  | pat, b :: rest => chStarts pat (b :: rest) || chSub pat rest

/-- Model of JS `s.includes(pat)`. -/
def strHasSub (s pat : String) : Bool := chSub pat.data s.data

/-- Model of JS `s.endsWith(pat)`. -/
def strEndsWithStr (s pat : String) : Bool :=
  chStarts pat.data.reverse s.data.reverse

/-! ### URL heuristic of checkLink (src/script.js lines 114-131) -/

/-- The relevant pieces of a successfully parsed URL, already lowercased as
in `parsedUrl.href.toLowerCase()` / `parsedUrl.hostname.toLowerCase()`. -/
structure UrlParts where
  href : String
  hostname : String
  protocol : String

/-- src/script.js line 18. -/
def SHORTENERS : List String :=
  ["bit.ly", "t.co", "tinyurl.com", "ow.ly", "is.gd", "buff.ly", "goo.gl"]

/-- src/script.js line 19 (the first entry contains a space, as in the
source text). -/
def SUSPICIOUS_TLDS : List String := [". xyz", ".top", ".gq", ".tk", ".cf"]

/-- src/script.js line 118: the host contains the substring xn--. -/
def isPunycode (host : String) : Bool := strHasSub host "xn--"

/-- src/script.js line 119. -/
def isShortener (host : String) : Bool :=
  SHORTENERS.any fun s => host == s || strEndsWithStr host (String.append "." s)

/-- src/script.js line 120. -/
def hasSuspiciousTld (host : String) : Bool :=
  SUSPICIOUS_TLDS.any fun t => strEndsWithStr host t

/-- src/script.js line 121. -/
def hasLoginKeyword (href : String) : Bool :=
  strHasSub href "login" || strHasSub href "signin" || strHasSub href "secure"

/-- src/script.js line 130: protocol not http: and not https:. -/
def unusualProtocol (p : String) : Bool := p != "http:" && p != "https:"

/-- src/script.js lines 124-130: score starts at 85 and each matched
heuristic subtracts its penalty. -/
def rawConfidence (u : UrlParts) : ℤ :=
  85 - (if isPunycode u.hostname then 35 else 0)
     - (if isShortener u.hostname then 30 else 0)
     - (if hasSuspiciousTld u.hostname then 25 else 0)
     - (if hasLoginKeyword u.href then 20 else 0)
     - (if unusualProtocol u.protocol then 40 else 0)

/-- src/script.js line 131: `Math.max(0, Math.min(100, confidence))`. -/
def confidenceScore (u : UrlParts) : ℤ :=
  max 0 (min 100 (rawConfidence u))

/-! ### The script.js gauge animation (src/script.js lines 356-453)

The rendered DOM attributes touched by `animateGauge` are collected in
`ScriptDom`.  The endpoint marker position is recorded by the arc-length
argument passed to `getPointAtLength`; the text of the label element is
`Confidence: N%` and we record the number `N`. -/

/-- DOM attributes of the script.js gauge written by animateGauge and its
callbacks. -/
structure ScriptDom where
  /-- first entry of the stroke-dasharray of the fill path (visible arc length). -/
  fillDashOn : ℚ
  /-- second entry of the stroke-dasharray of the fill path. -/
  fillDashOff : ℚ
  /-- stroke attribute of the fill path. -/
  fillStroke : String
  /-- fill attribute of the endpoint marker. -/
  endFill : String
  /-- arc length at which the endpoint marker sits (argument of
  `getPointAtLength` whose image is written to cx/cy). -/
  endLen : ℚ
  /-- rotation angle (degrees) in the transform attribute of the needle. -/
  needleAngle : ℚ
  /-- whether needle.style.transition is currently the string none. -/
  needleTransitionOff : Bool
  /-- number N in the label text `Confidence: N%`. -/
  labelNum : ℚ
  deriving DecidableEq

/-- Presence of the five DOM nodes script.js animateGauge looks up
(lines 358-362): `.gauge-fill`, `.needle`, `.confidence-label`,
`.gauge-bg`, `.arc-end`. -/
structure ScriptPresence where
  fill : Bool
  needle : Bool
  label : Bool
  bg : Bool
  arcEnd : Bool
  deriving DecidableEq

/-- The guard of src/script.js line 364: all five nodes present. -/
def presOk (p : ScriptPresence) : Bool :=
  p.fill && p.needle && p.label && p.bg && p.arcEnd

/-- Options of script.js animateGauge (line 357); `duration` is `none` when
the caller omitted it. The debug flag has no rendering effect and is not
modelled. -/
structure ScriptOptions where
  duration : Option ℚ
  reduceMotion : Bool
  enableWobble : Bool
  deriving DecidableEq

/-- src/script.js line 357: `const { duration = 1200, ... } = options` —
note there is no 200 ms floor in this variant. -/
def scriptDuration (o : ScriptOptions) : ℚ := o.duration.getD 1200

/-- src/script.js line 369: `Math.max(0, Math.min(100, Number(confidence) || 0))`;
`Number(x) || 0` maps NaN to 0. -/
def safeConfidence (c : JSNum) : ℚ :=
  max 0 (min 100 (c.getD 0))

/-- src/script.js lines 371-372: raw target needle angle, clamped to
[-90, 90]. -/
def targetAngleQ (safe : ℚ) : ℚ :=
  max (-90) (min 90 (-90 + safe / 100 * 180))

/-- src/script.js line 26: `easeOutCubic`. -/
def easeOutCubic (t : ℚ) : ℚ := 1 - (1 - t) ^ 3

/-- A pending requestAnimationFrame callback.  The frame closure of
script.js animateGauge captures the clamped confidence, the measured arc
length, the effective duration, the wobble flag and the (initially unset)
start timestamp. -/
inductive ScriptCb where
  | frame (safe maxArc duration : ℚ) (wob : Bool) (start : Option ℚ)
  deriving DecidableEq

/-- Effective duration captured by a pending frame callback. -/
def cbDuration : ScriptCb → ℚ
  | .frame _ _ d _ _ => d

/-- A pending setTimeout callback of the animation subsystem: a step of the
needle wobble chain (src/script.js lines 438-450), carrying the base angle,
the next direction, the steps done so far and the total wobble count. -/
inductive ScriptTimer where
  | wobbleStep (base dir : ℚ) (count wobbles : ℕ)
  deriving DecidableEq

/-- Global state of the script.js animation subsystem: the DOM, the
module-level `currentRaf` handle (line 15), the pending
animation-frame callbacks (handle, closure) and pending timers. -/
structure ScriptState where
  dom : ScriptDom
  currentRaf : Option ℕ
  pendingFrames : List (ℕ × ScriptCb)
  pendingTimers : List ScriptTimer
  nextId : ℕ
  deriving DecidableEq

/-- src/script.js lines 387-390 (also 68-71): cancel the frame registered in
`currentRaf`, if any, and clear the handle.  Pending timers hold no handle
and are untouched. -/
def cancelRaf (s : ScriptState) : ScriptState :=
  match s.currentRaf with
  | none => s
  | some h =>
      { s with currentRaf := none
               pendingFrames := s.pendingFrames.filter fun p => p.1 != h }

/-- Body of the frame closure, src/script.js lines 395-428, given the
captured values and `elapsed = now - start`.  Returns the new DOM, whether
the closure re-registered itself (progress < 1), and whether it invoked the
wobble settle effect on completion. -/
def scriptFrame (safe maxArc duration : ℚ) (wob : Bool) (elapsed : ℚ)
    (dom : ScriptDom) : ScriptDom × Bool × Bool :=
  let arc := safe / 100 * maxArc
  let progress := min (elapsed / duration) 1
  let eased := easeOutCubic progress
  let currentArc := arc * eased
  let tgt := targetAngleQ safe
  let dom1 : ScriptDom :=
    { dom with
        fillDashOn := currentArc
        fillDashOff := maxArc - currentArc
        endLen := currentArc
        needleAngle := max (-90) (min tgt (-90 + (tgt - (-90)) * eased))
        labelNum := ((round (safe * eased) : ℤ) : ℚ) }
  if progress < 1 then (dom1, true, false)
  else ({ dom1 with needleAngle := tgt, labelNum := safe }, false, wob)

/-- Body of one wobble step, src/script.js lines 438-450: writes the needle
transform unconditionally (no cancellation token exists) and either
schedules the next step or restores the base angle. -/
def wobbleStepRun (base dir : ℚ) (count wobbles : ℕ) (dom : ScriptDom) :
    ScriptDom × Option ScriptTimer :=
  let dom1 := { dom with needleAngle := base + dir * 8, needleTransitionOff := false }
  if count + 1 < wobbles * 2 then
    (dom1, some (ScriptTimer.wobbleStep base (-dir) (count + 1) wobbles))
  else
    ({ dom1 with needleAngle := base, needleTransitionOff := true }, none)

/-- src/script.js lines 356-431: animateGauge.  `maxArc` is the value of
`pathEl.getTotalLength()` (283 on the catch path).  The five-element guard
(line 364) precedes every mutation; the reduced-motion branch (lines
377-385) snaps and returns without touching `currentRaf`; the animated
branch cancels the current frame (lines 387-390) — after the two color
writes of lines 374-375 — and registers a fresh frame closure. -/
def scriptAnimateGauge (c : JSNum) (color : String) (o : ScriptOptions)
    (maxArc : ℚ) (pres : ScriptPresence) (s : ScriptState) : ScriptState :=
  if presOk pres then
    let safe := safeConfidence c
    let arc := safe / 100 * maxArc
    let tgt := targetAngleQ safe
    let dom1 := { s.dom with fillStroke := color, endFill := color }
    if o.reduceMotion then
      { s with dom :=
          { dom1 with
              fillDashOn := arc
              fillDashOff := maxArc - arc
              endLen := arc
              needleAngle := tgt
              labelNum := safe } }
    else
      let s1 := cancelRaf { s with dom := dom1 }
      { s1 with
          dom := { s1.dom with needleTransitionOff := true }
          pendingFrames := s1.pendingFrames ++
            [(s1.nextId, ScriptCb.frame safe maxArc (scriptDuration o) o.enableWobble none)]
          currentRaf := some s1.nextId
          nextId := s1.nextId + 1 }
  else s

/-- Cancellation of the previous run in checkLink, src/script.js lines 63-71:
the AbortController is aborted (its only listener clears the result-delay
timeout, modelled by `delayCallback`) and the current animation frame is
cancelled.  Wobble timers hold neither a token nor a handle. -/
def cancelPrevRun (s : ScriptState) : ScriptState := cancelRaf s

/-- The result-delay callback of checkLink, src/script.js lines 95-167: it
checks `signal.aborted` at the top and does nothing when aborted; `body`
abstracts the render-and-animate work of the non-aborted path. -/
def delayCallback (aborted : Bool) (body : ScriptState → ScriptState)
    (s : ScriptState) : ScriptState :=
  if aborted then s else body s

/-- Fire the first pending timer (a wobble step): pop it, run its body, push
its successor if it scheduled one. -/
def fireFirstTimer (s : ScriptState) : ScriptState :=
  match s.pendingTimers with
  | [] => s
  | ScriptTimer.wobbleStep base dir count wobbles :: rest =>
      let r := wobbleStepRun base dir count wobbles s.dom
      { s with dom := r.1, pendingTimers := rest ++ r.2.toList }

/-- Bookkeeping invariant of script.js: the pending animation frames are
exactly the ones tracked by the module-level `currentRaf` handle (at most
one, and its handle is `currentRaf`). -/
def Tracked (s : ScriptState) : Prop :=
  s.pendingFrames.length ≤ 1 ∧ ∀ p ∈ s.pendingFrames, s.currentRaf = some p.1

/-! ### The gauge.js module (src/gauge.js lines 60-132, first variant)

gauge.js animates the arc and needle through CSS transitions (it writes the
final attribute values and a transition property) and the numeric label
through its own requestAnimationFrame loop.  It stores no animation handle
and never cancels anything.  Mutations are recorded as an ordered list of
events, and scheduled callbacks as a list. -/

/-- Presence of the nodes gauge.js animateGauge / setGaugePercentage look
up: the `.gauge` svg, `.gauge-value`, `.gauge-needle`, and the optional
`.confidence-label`. -/
structure GaugePresence where
  svg : Bool
  value : Bool
  needle : Bool
  label : Bool
  deriving DecidableEq

/-- One DOM write performed by gauge.js. -/
inductive GaugeMut where
  /-- the write of c to the --gauge-color property of the root style (line 66). -/
  | setRootColor (c : String)
  /-- the animating class added to the svg (line 77). -/
  | addAnimating
  /-- transitions set to the string none (lines 105-106). -/
  | setTransitionsOff
  /-- stroke-dashoffset / transform transitions over `d` ms (lines 108-109). -/
  | setTransitionsOn (d : ℚ)
  /-- the stroke-dashoffset attribute of the value arc set to v (line 111). -/
  | setDashoffset (v : JSNum)
  /-- `needle.style.transform = rotate(v deg)` (line 116). -/
  | setNeedleAngle (v : JSNum)
  deriving DecidableEq

/-- One scheduled callback of gauge.js animateGauge. -/
inductive GaugeSched where
  /-- the requestAnimationFrame label loop started by `animateLabel`
  (line 131), capturing the raw target and the duration. -/
  | labelRaf (target : JSNum) (duration : ℚ)
  /-- the completion `window.setTimeout(..., duration + 50)` (lines 88-92);
  its id is discarded by the source. -/
  | completionTimeout (duration : ℚ)
  deriving DecidableEq

/-- Options of gauge.js animateGauge (lines 61-62). -/
structure GaugeOptions where
  duration : Option ℚ
  reduceMotion : Bool
  deriving DecidableEq

/-- src/gauge.js line 61: `Math.max(200, options.duration ?? 1100)`. -/
def gaugeDuration (o : GaugeOptions) : ℚ :=
  max 200 (o.duration.getD 1100)

/-- src/gauge.js lines 97-117: setGaugePercentage.  `arcLen` is the module
constant ARC_LENGTH (Math.PI * 80 in the source; kept as a parameter).
Percentage arithmetic runs on JS numbers, so NaN propagates through
`Math.max` / `Math.min` into the offset and the angle. -/
def setGaugePercentage (arcLen : ℚ) (p : JSNum) (duration : ℚ)
    (reduceMotion immediate : Bool) (pres : GaugePresence) : List GaugeMut :=
  if pres.value && pres.needle then
    let clamped := jsMax (some 0) (jsMin (some 100) p)
    let offset := jsSub (some arcLen) (jsDiv (jsMul (some arcLen) clamped) (some 100))
    let angleDeg := jsAdd (some (-180)) (jsMul (jsDiv clamped (some 100)) (some 180))
    (if immediate || reduceMotion then [GaugeMut.setTransitionsOff]
     else [GaugeMut.setTransitionsOn duration]) ++
      [GaugeMut.setDashoffset offset, GaugeMut.setNeedleAngle angleDeg]
  else []

/-- src/gauge.js line 123: easeOutQuart. -/
def easeOutQuart (t : ℚ) : ℚ := 1 - (1 - t) ^ 4

/-- Body of the step closure of the label loop (src/gauge.js lines 125-130) at
`elapsed = now - start`: the value written to the label (from = 0,
to = Math.round(target)) and whether the loop re-registers itself. -/
def labelStep (target : JSNum) (duration elapsed : ℚ) : JSNum × Bool :=
  let t := min 1 (elapsed / duration)
  (jsRound (jsMul (jsRound target) (some (easeOutQuart t))), t < 1)

/-- The color write of src/gauge.js lines 65-67: performed when `color` is
truthy (`none` models an absent or falsy color), before the element guard. -/
def gaugeColorMuts : Option String → List GaugeMut
  | none => []
  | some col => [GaugeMut.setRootColor col]

/-- src/gauge.js lines 60-93: animateGauge.  Returns the ordered DOM writes
and the callbacks it scheduled.  The `--gauge-color` write precedes the
element guard of line 74; the label loop is only started when a label is
present and motion is not reduced; the completion timeout is always
scheduled once the guard passes. -/
def gaugeAnimateGauge (arcLen : ℚ) (c : JSNum) (color : Option String)
    (o : GaugeOptions) (pres : GaugePresence) : List GaugeMut × List GaugeSched :=
  let colorMuts := gaugeColorMuts color
  if pres.svg && pres.value && pres.needle then
    let d := gaugeDuration o
    (colorMuts ++ [GaugeMut.addAnimating] ++
       setGaugePercentage arcLen c d o.reduceMotion false pres,
     (if pres.label && !o.reduceMotion then [GaugeSched.labelRaf c d] else []) ++
       [GaugeSched.completionTimeout d])
  else (colorMuts, [])

/-- Rendered state of a gauge.js gauge (the attributes the module writes).
`labelShown` is the number N in the label text `Confidence: N%` (`none`
would mean the text NaN was written). -/
structure GaugeDom where
  rootColor : Option String
  animating : Bool
  complete : Bool
  labelComplete : Bool
  transitionsOff : Bool
  dashoffset : JSNum
  needleAngle : JSNum
  labelShown : JSNum
  deriving DecidableEq

/-- Apply one recorded gauge.js DOM write to the rendered state. -/
def applyGaugeMut (d : GaugeDom) : GaugeMut → GaugeDom
  | .setRootColor c => { d with rootColor := some c }
  | .addAnimating => { d with animating := true }
  | .setTransitionsOff => { d with transitionsOff := true }
  | .setTransitionsOn _ => { d with transitionsOff := false }
  | .setDashoffset v => { d with dashoffset := v }
  | .setNeedleAngle v => { d with needleAngle := v }

/-- Run one scheduled gauge.js callback to quiescence: the label loop stops
at its frame with `elapsed = duration` (t = 1), whose write is that of
`labelStep` there; the completion timeout swaps the animating class for
complete and marks the label complete when present (lines 88-92). -/
def runGaugeSched (pres : GaugePresence) (d : GaugeDom) : GaugeSched → GaugeDom
  | .labelRaf target dur => { d with labelShown := (labelStep target dur dur).1 }
  | .completionTimeout _ =>
      { d with animating := false, complete := true
               labelComplete := pres.label || d.labelComplete }

/-- Rendered state after one gauge.js animateGauge call and all the work it
scheduled has run to quiescence, starting from the rendered state `d0`. -/
def gaugeRunToEnd (arcLen : ℚ) (c : JSNum) (color : Option String)
    (o : GaugeOptions) (pres : GaugePresence) (d0 : GaugeDom) : GaugeDom :=
  let r := gaugeAnimateGauge arcLen c color o pres
  (r.1.foldl applyGaugeMut d0 |> fun d1 => r.2.foldl (runGaugeSched pres) d1)

/-- Pending scheduled callbacks after a list of back-to-back gauge.js
animateGauge calls (before any callback fires): gauge.js stores no handle
and cancels nothing, so schedules accumulate. -/
def gaugePendingAfterCalls (arcLen : ℚ) (pres : GaugePresence)
    (calls : List (JSNum × Option String × GaugeOptions)) : List GaugeSched :=
  calls.foldl (fun acc call => acc ++ (gaugeAnimateGauge arcLen call.1 call.2.1 call.2.2 pres).2) []

/-- Whether a scheduled callback is a numeric-label animation loop. -/
def isLabelLoop : GaugeSched → Bool
  | .labelRaf _ _ => true
  | .completionTimeout _ => false

/-- Number of numeric-label animation loops among the pending callbacks. -/
def labelLoopCount (l : List GaugeSched) : ℕ :=
  (l.filter isLabelLoop).length

/-! ### Concrete fixtures used by witnesses and counterexamples -/

/-- Initial rendered state of the script.js gauge as built by
renderResultCard (dasharray 0 283, needle at -90, label Confidence: 0%). -/
def scriptDom0 : ScriptDom :=
  { fillDashOn := 0, fillDashOff := 283, fillStroke := "#eee"
    endFill := "transparent", endLen := 0, needleAngle := -90
    needleTransitionOff := false, labelNum := 0 }

/-- Quiescent script.js animation state: nothing pending, no handle. -/
def scriptState0 : ScriptState :=
  { dom := scriptDom0, currentRaf := none, pendingFrames := []
    pendingTimers := [], nextId := 0 }

/-- All five script.js gauge nodes present. -/
def presAll5 : ScriptPresence :=
  { fill := true, needle := true, label := true, bg := true, arcEnd := true }

/-- Options passed by checkLink (line 157): duration 1100, motion not
reduced, wobble enabled. -/
def opts0 : ScriptOptions :=
  { duration := some 1100, reduceMotion := false, enableWobble := true }

/-- Default gauge.js options: nothing supplied. -/
def gopts0 : GaugeOptions := { duration := none, reduceMotion := false }

/-- All gauge.js nodes present, label included. -/
def presAll4 : GaugePresence :=
  { svg := true, value := true, needle := true, label := true }

/-- Initial rendered state of a freshly created gauge.js gauge
(createGauge at percentage 0 with a label reading Confidence: 0%). -/
def gaugeDom0 : GaugeDom :=
  { rootColor := none, animating := false, complete := false
    labelComplete := false, transitionsOff := true
    dashoffset := some 251, needleAngle := some (-180), labelShown := some 0 }

/-- A gauge.js animateGauge call with value `v` and the danger color. -/
def gcall (v : ℚ) : JSNum × Option String × GaugeOptions :=
  (some v, some "#dc3545", gopts0)

/-! ### Helper lemmas -/

/-- Clamping to [0,100] is idempotent. -/
theorem clampQ_idem (v : ℚ) :
    max 0 (min 100 (max 0 (min 100 v))) = max 0 (min 100 v) := by
  have h1 : max 0 (min 100 v) ≤ 100 := max_le (by norm_num) (min_le_left _ _)
  rw [min_eq_right h1, ← max_assoc, max_self]

/-- Under the tracking invariant, cancelling the current frame leaves no
pending frame and clears the handle; nothing else changes. -/
theorem cancelRaf_eq_of_tracked (s : ScriptState) (hs : Tracked s) :
    cancelRaf s = { s with currentRaf := none, pendingFrames := [] } := by
  obtain ⟨dom, raf, frames, timers, nid⟩ := s
  obtain ⟨hlen, htrack⟩ := hs
  cases raf with
  | none =>
      cases frames with
      | nil => rfl
      | cons p rest =>
          exact absurd (htrack p (List.mem_cons_self p rest)) (by simp)
  | some h =>
      have hfil : List.filter (fun p => p.1 != h) frames = [] := by
        refine List.filter_eq_nil_iff.mpr ?_
        intro p hp
        have hph := htrack p hp
        simp only [Option.some.injEq] at hph
        simp [hph]
      simp [cancelRaf, hfil]

/-- Effect of script.js animateGauge in the animated path under the
tracking invariant: colors written, current frame cancelled, needle
transitions disabled, and exactly one fresh frame closure registered. -/
theorem scriptAnimate_run (c : JSNum) (color : String) (o : ScriptOptions)
    (maxArc : ℚ) (pres : ScriptPresence) (s : ScriptState)
    (hp : presOk pres = true) (hrm : o.reduceMotion = false) (hs : Tracked s) :
    scriptAnimateGauge c color o maxArc pres s =
      { s with
          dom := { s.dom with
              fillStroke := color
              endFill := color
              needleTransitionOff := true }
          currentRaf := some s.nextId
          pendingFrames := [(s.nextId,
            ScriptCb.frame (safeConfidence c) maxArc (scriptDuration o)
              o.enableWobble none)]
          nextId := s.nextId + 1 } := by
  have hs1 : Tracked { s with dom :=
      { s.dom with fillStroke := color, endFill := color } } := hs
  simp only [scriptAnimateGauge, hp, hrm, if_true, Bool.false_eq_true, if_false]
  rw [cancelRaf_eq_of_tracked _ hs1]
  simp

/-- A state with exactly one registered frame whose handle is tracked
satisfies the invariant. -/
theorem tracked_single (dom : ScriptDom) (h : ℕ) (cb : ScriptCb)
    (timers : List ScriptTimer) (nid : ℕ) :
    Tracked { dom := dom, currentRaf := some h, pendingFrames := [(h, cb)]
              pendingTimers := timers, nextId := nid } := by
  constructor
  · simp
  · intro p hp
    simp only [List.mem_singleton] at hp
    simp [hp]

/-! ### Claim theorems -/

/-- C1: when a script.js animateGauge frame reaches progress = 1 (elapsed
at least the duration), the rendered state is snapped exactly to the
target: the label shows v (text `Confidence: v%`), the needle angle is
angleStart + (v/100)·angleSpan for the sweep -90°..+90°, the visible arc
stroke length is (v/100) of the total arc length, no further frame is
registered, and the optional wobble settle effect ends by restoring the
needle to exactly the target angle. -/
theorem completion_frame_snaps (v maxArc duration elapsed dir : ℚ) (w : ℕ)
    (wob : Bool) (dom dom2 : ScriptDom)
    (hv0 : 0 ≤ v) (hv1 : v ≤ 100) (hd : 0 < duration) (he : duration ≤ elapsed) :
    (scriptFrame (safeConfidence (some v)) maxArc duration wob elapsed dom).1.labelNum = v ∧
    (scriptFrame (safeConfidence (some v)) maxArc duration wob elapsed dom).1.needleAngle
      = -90 + v / 100 * 180 ∧
    (scriptFrame (safeConfidence (some v)) maxArc duration wob elapsed dom).1.fillDashOn
      = v / 100 * maxArc ∧
    (scriptFrame (safeConfidence (some v)) maxArc duration wob elapsed dom).1.fillDashOff
      = maxArc - v / 100 * maxArc ∧
    (scriptFrame (safeConfidence (some v)) maxArc duration wob elapsed dom).2.1 = false ∧
    (wobbleStepRun (targetAngleQ v) dir (w * 2 - 1) w dom2).1.needleAngle
      = targetAngleQ v := by
  have hsafe : safeConfidence (some v) = v := by
    simp only [safeConfidence, Option.getD_some]
    rw [min_eq_right hv1, max_eq_right hv0]
  have hprog : min (elapsed / duration) 1 = 1 := by
    refine min_eq_right ?_
    rw [le_div_iff₀ hd]
    linarith
  have heased : easeOutCubic 1 = 1 := by norm_num [easeOutCubic]
  have htgt : targetAngleQ v = -90 + v / 100 * 180 := by
    have h1 : -90 ≤ -90 + v / 100 * 180 := by linarith
    have h2 : -90 + v / 100 * 180 ≤ 90 := by linarith
    simp only [targetAngleQ]
    rw [min_eq_right h2, max_eq_right h1]
  have hw : ¬ (w * 2 - 1 + 1 < w * 2) := by omega
  refine ⟨?_, ?_, ?_, ?_, ?_, ?_⟩ <;>
    simp [scriptFrame, wobbleStepRun, hsafe, hprog, heased, htgt, hw]

/-- C1 witness: the spec scenario animateTo(30, duration 1100) evaluated at
elapsed = 1100. -/
theorem completion_frame_snaps_witness :
    (scriptFrame (safeConfidence (some 30)) 283 1100 false 1100 scriptDom0).1.labelNum = 30 ∧
    (scriptFrame (safeConfidence (some 30)) 283 1100 false 1100 scriptDom0).1.needleAngle
      = -90 + 30 / 100 * 180 ∧
    (scriptFrame (safeConfidence (some 30)) 283 1100 false 1100 scriptDom0).1.fillDashOn
      = 30 / 100 * 283 ∧
    (scriptFrame (safeConfidence (some 30)) 283 1100 false 1100 scriptDom0).1.fillDashOff
      = 283 - 30 / 100 * 283 ∧
    (scriptFrame (safeConfidence (some 30)) 283 1100 false 1100 scriptDom0).2.1 = false ∧
    (wobbleStepRun (targetAngleQ 30) 1 (3 * 2 - 1) 3 scriptDom0).1.needleAngle
      = targetAngleQ 30 :=
  completion_frame_snaps 30 283 1100 1100 1 3 false scriptDom0 scriptDom0
    (by norm_num) (by norm_num) (by norm_num) (by norm_num)

/-- C2 counterexample: with a label present, gauge.js animateGauge(150)
does not end in the same rendered state as animateGauge(100): the label
loop targets the unclamped value, so the label ends reading
`Confidence: 150%`. -/
theorem gauge_150_100_states_differ :
    (gaugeRunToEnd 251 (some 150) (some "#dc3545") gopts0 presAll4 gaugeDom0).labelShown
      = some 150 ∧
    (gaugeRunToEnd 251 (some 100) (some "#dc3545") gopts0 presAll4 gaugeDom0).labelShown
      = some 100 ∧
    gaugeRunToEnd 251 (some 150) (some "#dc3545") gopts0 presAll4 gaugeDom0 ≠
      gaugeRunToEnd 251 (some 100) (some "#dc3545") gopts0 presAll4 gaugeDom0 := by
  have h150 : (gaugeRunToEnd 251 (some 150) (some "#dc3545") gopts0 presAll4
      gaugeDom0).labelShown = some 150 := by
    norm_num [gaugeRunToEnd, gaugeAnimateGauge, gaugeColorMuts, setGaugePercentage,
      gaugeDuration, gopts0, presAll4, gaugeDom0, applyGaugeMut, runGaugeSched,
      labelStep, easeOutQuart, jsRound, jsMul, jsDiv, jsSub, jsAdd, jsMax, jsMin,
      jsBinOp, round_eq]
  have h100 : (gaugeRunToEnd 251 (some 100) (some "#dc3545") gopts0 presAll4
      gaugeDom0).labelShown = some 100 := by
    norm_num [gaugeRunToEnd, gaugeAnimateGauge, gaugeColorMuts, setGaugePercentage,
      gaugeDuration, gopts0, presAll4, gaugeDom0, applyGaugeMut, runGaugeSched,
      labelStep, easeOutQuart, jsRound, jsMul, jsDiv, jsSub, jsAdd, jsMax, jsMin,
      jsBinOp, round_eq]
  refine ⟨h150, h100, fun hEq => ?_⟩
  rw [hEq, h100] at h150
  simp only [Option.some.injEq] at h150
  norm_num at h150

/-- C2 amended: script.js animateGauge renders the state for the clamped
value — its whole effect at input v equals its effect at max(0, min(100, v))
— and setGaugePercentage of gauge.js clamps the arc offset and needle angle
likewise; only the gauge.js label animation targets the unclamped value. -/
theorem animate_renders_clamped :
    (∀ (v : ℚ) (color : String) (o : ScriptOptions) (maxArc : ℚ)
        (pres : ScriptPresence) (s : ScriptState),
      scriptAnimateGauge (some v) color o maxArc pres s =
        scriptAnimateGauge (some (max 0 (min 100 v))) color o maxArc pres s) ∧
    (∀ (arcLen v duration : ℚ) (rm im : Bool) (pres : GaugePresence),
      setGaugePercentage arcLen (some v) duration rm im pres =
        setGaugePercentage arcLen (some (max 0 (min 100 v))) duration rm im pres) := by
  constructor
  · intro v color o maxArc pres s
    have h : safeConfidence (some (max 0 (min 100 v))) = safeConfidence (some v) := by
      simp only [safeConfidence, Option.getD_some]
      exact clampQ_idem v
    simp only [scriptAnimateGauge, h]
  · intro arcLen v duration rm im pres
    have h2 : jsMax (some 0) (jsMin (some 100) (some (max 0 (min 100 v)))) =
        jsMax (some 0) (jsMin (some 100) (some v)) := by
      simp only [jsMax, jsMin, jsBinOp]
      rw [clampQ_idem v]
    simp only [setGaugePercentage, h2]

/-- The quiescent state satisfies the tracking invariant. -/
theorem tracked_quiescent : Tracked scriptState0 := by
  constructor
  · simp [scriptState0]
  · intro p hp
    simp [scriptState0] at hp

/-- C3 counterexample: two back-to-back gauge.js animateGauge calls on the
same instance leave two numeric-label animation loops pending, not one —
animateLabel registers a new loop each time and nothing is ever cancelled. -/
theorem label_loops_accumulate :
    labelLoopCount (gaugePendingAfterCalls 251 presAll4 [gcall 30, gcall 60]) = 2 ∧
    labelLoopCount (gaugePendingAfterCalls 251 presAll4 [gcall 30, gcall 60]) ≠ 1 := by
  constructor
  · simp [gaugePendingAfterCalls, gaugeAnimateGauge, gcall, gopts0, presAll4,
      labelLoopCount, isLabelLoop, List.filter]
  · simp [gaugePendingAfterCalls, gaugeAnimateGauge, gcall, gopts0, presAll4,
      labelLoopCount, isLabelLoop, List.filter]

/-- C3 amended: script.js animateGauge in its animated path does cancel the
tracked frame handle and registers exactly one fresh frame loop (the
invariant is preserved); the gauge.js numeric-label loops and completion
timers, however, are started without any handle and accumulate. -/
theorem scriptAnimate_single_frame_loop (c : JSNum) (color : String)
    (o : ScriptOptions) (maxArc : ℚ) (pres : ScriptPresence) (s : ScriptState)
    (hp : presOk pres = true) (hrm : o.reduceMotion = false) (hs : Tracked s) :
    (scriptAnimateGauge c color o maxArc pres s).pendingFrames =
      [(s.nextId, ScriptCb.frame (safeConfidence c) maxArc (scriptDuration o)
        o.enableWobble none)] ∧
    (scriptAnimateGauge c color o maxArc pres s).currentRaf = some s.nextId ∧
    Tracked (scriptAnimateGauge c color o maxArc pres s) := by
  rw [scriptAnimate_run c color o maxArc pres s hp hrm hs]
  refine ⟨rfl, rfl, ?_⟩
  constructor
  · simp
  · intro p hp'
    simp only [List.mem_singleton] at hp'
    simp [hp']

/-- C3 witness: a concrete animated call on a quiescent state registers
exactly one tracked frame loop. -/
theorem scriptAnimate_single_frame_loop_witness :
    (scriptAnimateGauge (some 30) "#dc3545" opts0 283 presAll5 scriptState0).pendingFrames =
      [(scriptState0.nextId, ScriptCb.frame (safeConfidence (some 30)) 283
        (scriptDuration opts0) opts0.enableWobble none)] ∧
    (scriptAnimateGauge (some 30) "#dc3545" opts0 283 presAll5 scriptState0).currentRaf =
      some scriptState0.nextId ∧
    Tracked (scriptAnimateGauge (some 30) "#dc3545" opts0 283 presAll5 scriptState0) :=
  scriptAnimate_single_frame_loop (some 30) "#dc3545" opts0 283 presAll5 scriptState0
    rfl rfl tracked_quiescent

/-- C4 counterexample: gauge.js animateGauge with the gauge SVG missing is
not a no-op — the `--gauge-color` custom property is still written on the
root (line 66 precedes the element guard of line 74). -/
theorem color_written_without_svg :
    (gaugeAnimateGauge 251 (some 30) (some "#dc3545") gopts0
      { svg := false, value := true, needle := true, label := true }).1 =
      [GaugeMut.setRootColor "#dc3545"] ∧
    (gaugeAnimateGauge 251 (some 30) (some "#dc3545") gopts0
      { svg := false, value := true, needle := true, label := true }).1 ≠ [] := by
  constructor
  · simp [gaugeAnimateGauge, gaugeColorMuts]
  · simp [gaugeAnimateGauge, gaugeColorMuts]

/-- C4 amended: with a required node missing neither variant throws (the
models are total functions): script.js animateGauge performs no mutation at
all, and gauge.js animateGauge performs no gauge rendering and schedules
nothing, but still writes the `--gauge-color` property when a color is
supplied. -/
theorem missing_nodes_guard :
    (∀ (c : JSNum) (color : String) (o : ScriptOptions) (maxArc : ℚ)
        (pres : ScriptPresence) (s : ScriptState), presOk pres = false →
      scriptAnimateGauge c color o maxArc pres s = s) ∧
    (∀ (arcLen : ℚ) (c : JSNum) (color : Option String) (o : GaugeOptions)
        (pres : GaugePresence), (pres.svg && pres.value && pres.needle) = false →
      (gaugeAnimateGauge arcLen c color o pres).1 = gaugeColorMuts color ∧
      (gaugeAnimateGauge arcLen c color o pres).2 = []) := by
  constructor
  · intro c color o maxArc pres s hp
    simp [scriptAnimateGauge, hp]
  · intro arcLen c color o pres hp
    simp [gaugeAnimateGauge, hp]

/-- C4 witness: a script.js call with the label node missing leaves the
state untouched; a gauge.js call with the svg missing and no color writes
and schedules nothing. -/
theorem missing_nodes_guard_witness :
    scriptAnimateGauge (some 30) "#dc3545" opts0 283
      { fill := true, needle := true, label := false, bg := true, arcEnd := true }
      scriptState0 = scriptState0 ∧
    (gaugeAnimateGauge 251 (some 30) none gopts0
      { svg := false, value := true, needle := true, label := true }).1 =
      gaugeColorMuts none ∧
    (gaugeAnimateGauge 251 (some 30) none gopts0
      { svg := false, value := true, needle := true, label := true }).2 = [] :=
  ⟨missing_nodes_guard.1 (some 30) "#dc3545" opts0 283
      { fill := true, needle := true, label := false, bg := true, arcEnd := true }
      scriptState0 rfl,
   (missing_nodes_guard.2 251 (some 30) none gopts0
      { svg := false, value := true, needle := true, label := true } rfl).1,
   (missing_nodes_guard.2 251 (some 30) none gopts0
      { svg := false, value := true, needle := true, label := true } rfl).2⟩

/-- C5 counterexample: gauge.js animateGauge with reduceMotion set snaps
the arc (transitions disabled, offset written) but never writes the label
text — animateLabel is skipped and nothing else touches it, so a label
reading `Confidence: 0%` still reads 0, not the target 30. -/
theorem reduceMotion_label_untouched :
    (gaugeRunToEnd 251 (some 30) (some "#28a745")
      { duration := some 400, reduceMotion := true } presAll4 gaugeDom0).labelShown
      = some 0 ∧
    (gaugeRunToEnd 251 (some 30) (some "#28a745")
      { duration := some 400, reduceMotion := true } presAll4 gaugeDom0).labelShown
      ≠ some 30 ∧
    (gaugeRunToEnd 251 (some 30) (some "#28a745")
      { duration := some 400, reduceMotion := true } presAll4 gaugeDom0).dashoffset
      = some (251 - 251 * 30 / 100) := by
  refine ⟨?_, ?_, ?_⟩ <;>
    norm_num [gaugeRunToEnd, gaugeAnimateGauge, gaugeColorMuts, setGaugePercentage,
      gaugeDuration, presAll4, gaugeDom0, applyGaugeMut, runGaugeSched,
      jsDiv, jsSub, jsAdd, jsMul, jsMax, jsMin, jsBinOp]

/-- C5 amended: script.js animateGauge with reduceMotion snaps arc stroke,
endpoint, needle angle and label directly to their clamped target values
and registers no animation frame (the pending callbacks are untouched);
gauge.js snaps arc and needle likewise but leaves the label text to the
caller. -/
theorem reduceMotion_snaps (c : JSNum) (color : String) (o : ScriptOptions)
    (maxArc : ℚ) (pres : ScriptPresence) (s : ScriptState)
    (hp : presOk pres = true) (hrm : o.reduceMotion = true) :
    scriptAnimateGauge c color o maxArc pres s =
      { s with dom := { s.dom with
          fillStroke := color
          endFill := color
          fillDashOn := safeConfidence c / 100 * maxArc
          fillDashOff := maxArc - safeConfidence c / 100 * maxArc
          endLen := safeConfidence c / 100 * maxArc
          needleAngle := targetAngleQ (safeConfidence c)
          labelNum := safeConfidence c } } := by
  simp [scriptAnimateGauge, hp, hrm]

/-- C5 witness: the reduced-motion snap at value 30 on the quiescent
state. -/
theorem reduceMotion_snaps_witness :
    scriptAnimateGauge (some 30) "#dc3545"
      { duration := some 1100, reduceMotion := true, enableWobble := true }
      283 presAll5 scriptState0 =
      { scriptState0 with dom := { scriptState0.dom with
          fillStroke := "#dc3545"
          endFill := "#dc3545"
          fillDashOn := safeConfidence (some 30) / 100 * 283
          fillDashOff := 283 - safeConfidence (some 30) / 100 * 283
          endLen := safeConfidence (some 30) / 100 * 283
          needleAngle := targetAngleQ (safeConfidence (some 30))
          labelNum := safeConfidence (some 30) } } :=
  reduceMotion_snaps (some 30) "#dc3545"
    { duration := some 1100, reduceMotion := true, enableWobble := true }
    283 presAll5 scriptState0 rfl rfl

/-- C6 counterexample: gauge.js propagates NaN into the rendered
attributes: animateGauge with a NaN confidence writes a NaN
stroke-dashoffset and a NaN needle rotation (Math.max/Math.min propagate
NaN in line 98), and starts the label loop with a NaN target (so the label
text becomes `Confidence: NaN%`). -/
theorem nan_reaches_gauge_attributes :
    GaugeMut.setDashoffset none ∈
      (gaugeAnimateGauge 251 none (some "#dc3545") gopts0 presAll4).1 ∧
    GaugeMut.setNeedleAngle none ∈
      (gaugeAnimateGauge 251 none (some "#dc3545") gopts0 presAll4).1 ∧
    GaugeSched.labelRaf none (gaugeDuration gopts0) ∈
      (gaugeAnimateGauge 251 none (some "#dc3545") gopts0 presAll4).2 := by
  refine ⟨?_, ?_, ?_⟩ <;>
    simp [gaugeAnimateGauge, gaugeColorMuts, setGaugePercentage, presAll4, gopts0,
      jsMax, jsMin, jsMul, jsDiv, jsSub, jsAdd, jsBinOp]

/-- C6 amended: script.js coerces NaN to 0 before clamping — animateGauge
at NaN behaves exactly as at 0 and the clamped confidence always lies in
[0,100], so no NaN reaches its rendered attributes; gauge.js, by contrast,
lets NaN through (see the counterexample).  Neither variant throws. -/
theorem nan_clamped_in_script :
    (∀ (color : String) (o : ScriptOptions) (maxArc : ℚ) (pres : ScriptPresence)
        (s : ScriptState),
      scriptAnimateGauge none color o maxArc pres s =
        scriptAnimateGauge (some 0) color o maxArc pres s) ∧
    (∀ c : JSNum, 0 ≤ safeConfidence c ∧ safeConfidence c ≤ 100) := by
  constructor
  · intro color o maxArc pres s
    have h : safeConfidence none = safeConfidence (some 0) := rfl
    simp only [scriptAnimateGauge, h]
  · intro c
    exact ⟨le_max_left _ _, max_le (by norm_num) (min_le_left _ _)⟩

/-- C7 counterexample: two rapid gauge.js animateGauge calls with the same
target leave two numeric-label loops running (a duplicate), where a single
call leaves one. -/
theorem duplicate_label_loops_same_target :
    labelLoopCount (gaugePendingAfterCalls 251 presAll4 [gcall 30, gcall 30]) = 2 ∧
    labelLoopCount (gaugePendingAfterCalls 251 presAll4 [gcall 30]) = 1 := by
  constructor
  · simp [gaugePendingAfterCalls, gaugeAnimateGauge, gcall, gopts0, presAll4,
      labelLoopCount, isLabelLoop, List.filter]
  · simp [gaugePendingAfterCalls, gaugeAnimateGauge, gcall, gopts0, presAll4,
      labelLoopCount, isLabelLoop, List.filter]

/-- C7 amended: calling script.js animateGauge twice in rapid succession
with the same arguments leaves the same DOM and the same single pending
frame closure as one call (so the eventual final visual state is
identical and exactly one animation loop survives); gauge.js, by
contrast, leaks a duplicate label loop (see the counterexample). -/
theorem repeat_call_same_state (c : JSNum) (color : String) (o : ScriptOptions)
    (maxArc : ℚ) (pres : ScriptPresence) (s : ScriptState)
    (hp : presOk pres = true) (hrm : o.reduceMotion = false) (hs : Tracked s) :
    (scriptAnimateGauge c color o maxArc pres
        (scriptAnimateGauge c color o maxArc pres s)).dom =
      (scriptAnimateGauge c color o maxArc pres s).dom ∧
    (scriptAnimateGauge c color o maxArc pres
        (scriptAnimateGauge c color o maxArc pres s)).pendingFrames.map Prod.snd =
      (scriptAnimateGauge c color o maxArc pres s).pendingFrames.map Prod.snd ∧
    (scriptAnimateGauge c color o maxArc pres
        (scriptAnimateGauge c color o maxArc pres s)).pendingFrames.length = 1 ∧
    (scriptAnimateGauge c color o maxArc pres
        (scriptAnimateGauge c color o maxArc pres s)).pendingTimers =
      (scriptAnimateGauge c color o maxArc pres s).pendingTimers := by
  have h1 := scriptAnimate_run c color o maxArc pres s hp hrm hs
  have hs1 : Tracked (scriptAnimateGauge c color o maxArc pres s) := by
    rw [h1]
    exact tracked_single _ _ _ _ _
  have h2 := scriptAnimate_run c color o maxArc pres _ hp hrm hs1
  rw [h2, h1]
  refine ⟨?_, rfl, rfl, rfl⟩
  obtain ⟨fOn, fOff, fStroke, eFill, eLen, nAngle, nOff, lNum⟩ := s.dom
  rfl

/-- C7 witness: the two-rapid-calls property at value 30 from the
quiescent state. -/
theorem repeat_call_same_state_witness :
    (scriptAnimateGauge (some 30) "#dc3545" opts0 283 presAll5
        (scriptAnimateGauge (some 30) "#dc3545" opts0 283 presAll5 scriptState0)).dom =
      (scriptAnimateGauge (some 30) "#dc3545" opts0 283 presAll5 scriptState0).dom ∧
    (scriptAnimateGauge (some 30) "#dc3545" opts0 283 presAll5
        (scriptAnimateGauge (some 30) "#dc3545" opts0 283 presAll5
          scriptState0)).pendingFrames.map Prod.snd =
      (scriptAnimateGauge (some 30) "#dc3545" opts0 283 presAll5
        scriptState0).pendingFrames.map Prod.snd ∧
    (scriptAnimateGauge (some 30) "#dc3545" opts0 283 presAll5
        (scriptAnimateGauge (some 30) "#dc3545" opts0 283 presAll5
          scriptState0)).pendingFrames.length = 1 ∧
    (scriptAnimateGauge (some 30) "#dc3545" opts0 283 presAll5
        (scriptAnimateGauge (some 30) "#dc3545" opts0 283 presAll5
          scriptState0)).pendingTimers =
      (scriptAnimateGauge (some 30) "#dc3545" opts0 283 presAll5
        scriptState0).pendingTimers :=
  repeat_call_same_state (some 30) "#dc3545" opts0 283 presAll5 scriptState0
    rfl rfl tracked_quiescent

/-- C8 counterexample: a pending wobble timer survives the cancellation in
checkLink (abort plus cancelAnimationFrame) — firing it still mutates
the needle transform, moving the needle from 30 to 38 degrees after the
animation was cancelled. -/
theorem wobble_survives_cancellation :
    (fireFirstTimer (cancelPrevRun
      { dom := { scriptDom0 with needleAngle := 30, labelNum := 30 }
        currentRaf := none, pendingFrames := []
        pendingTimers := [ScriptTimer.wobbleStep 30 1 1 3], nextId := 4 })).dom.needleAngle
      = 38 ∧
    (fireFirstTimer (cancelPrevRun
      { dom := { scriptDom0 with needleAngle := 30, labelNum := 30 }
        currentRaf := none, pendingFrames := []
        pendingTimers := [ScriptTimer.wobbleStep 30 1 1 3], nextId := 4 })).dom.needleAngle
      ≠ 30 := by
  constructor
  · norm_num [fireFirstTimer, cancelPrevRun, cancelRaf, wobbleStepRun, scriptDom0]
  · norm_num [fireFirstTimer, cancelPrevRun, cancelRaf, wobbleStepRun, scriptDom0]

/-- C8 amended: cancellation coverage is incomplete: cancelling the previous
run deschedules the tracked animation frame (a cancelled frame callback
never runs) and an aborted delay callback performs no mutation, but the
pending wobble/settle timers hold no token or handle — cancellation leaves
them untouched and a fired wobble step always writes the needle
transform. -/
theorem cancellation_coverage :
    (∀ s : ScriptState, Tracked s →
      (cancelPrevRun s).pendingFrames = [] ∧ (cancelPrevRun s).currentRaf = none) ∧
    (∀ s : ScriptState, (cancelPrevRun s).pendingTimers = s.pendingTimers) ∧
    (∀ (body : ScriptState → ScriptState) (s : ScriptState),
      delayCallback true body s = s) ∧
    (∀ (base dir : ℚ) (count w : ℕ) (dom : ScriptDom),
      (wobbleStepRun base dir count w dom).1.needleAngle =
        if count + 1 < w * 2 then base + dir * 8 else base) := by
  refine ⟨?_, ?_, ?_, ?_⟩
  · intro s hs
    rw [cancelPrevRun, cancelRaf_eq_of_tracked s hs]
    exact ⟨rfl, rfl⟩
  · intro s
    rw [cancelPrevRun]
    cases hcr : s.currentRaf <;> simp [cancelRaf, hcr]
  · intro body s
    rfl
  · intro base dir count w dom
    by_cases h : count + 1 < w * 2 <;> simp [wobbleStepRun, h]

/-- C8 witness: cancellation coverage evaluated on the quiescent state. -/
theorem cancellation_coverage_witness :
    (cancelPrevRun scriptState0).pendingFrames = [] ∧
    (cancelPrevRun scriptState0).currentRaf = none :=
  cancellation_coverage.1 scriptState0 tracked_quiescent

/-- C9 counterexample: script.js animateGauge accepts a 50 ms duration
unchanged — the frame closure it registers carries duration 50, below the
claimed 200 ms floor. -/
theorem script_duration_no_floor :
    ((scriptAnimateGauge (some 30) "#28a745"
        { duration := some 50, reduceMotion := false, enableWobble := false }
        283 presAll5 scriptState0).pendingFrames.map fun p => cbDuration p.2) = [50] ∧
    ((50 : ℚ) < 200) := by
  constructor
  · simp [scriptAnimateGauge, presOk, presAll5, scriptState0, cancelRaf,
      scriptDuration, cbDuration]
  · norm_num

/-- C9 amended: gauge.js animateGauge floors the effective duration at
200 ms (default 1100 ms); script.js animateGauge has no floor — it uses
the supplied options.duration unchanged, with default 1200 ms when
absent. -/
theorem duration_floor_status :
    (∀ o : GaugeOptions, 200 ≤ gaugeDuration o) ∧
    (∀ (d : ℚ) (rm wb : Bool),
      scriptDuration { duration := some d, reduceMotion := rm, enableWobble := wb } = d) ∧
    (∀ rm wb : Bool,
      scriptDuration { duration := none, reduceMotion := rm, enableWobble := wb } = 1200) := by
  exact ⟨fun o => le_max_left _ _, fun d rm wb => rfl, fun rm wb => rfl⟩

/-- C10: for every successfully parsed URL the heuristic confidence score
lies in [0, 85]: scoring starts at 85, each heuristic only subtracts a
penalty, and the final clamp to [0, 100] cannot raise it, so the value
handed to the gauge and shown as the confidence percentage never exceeds
85. -/
theorem confidenceScore_le_85 (u : UrlParts) :
    0 ≤ confidenceScore u ∧ confidenceScore u ≤ 85 := by
  have hraw : rawConfidence u ≤ 85 := by
    unfold rawConfidence
    split <;> split <;> split <;> split <;> split <;> omega
  unfold confidenceScore
  omega
